import Mathlib

/-!
Verification of the QWXIOE expansion board driver (qwx_ioe_driver.c).

The driver mediates access to an I2C expansion board exposing
OUTPUTS_COUNT digital outputs and READERS_COUNT RFID card readers.
We embed the file operations (output_read, output_write, reader_read)
and the lifecycle functions (probe, remove) as pure Lean functions over
an explicit transport model, recording the observable bus events and
registry events as traces.

Conventions of the embedding:
* C char values are natural numbers reduced mod 256 (kernel builds use
  unsigned char; every value involved stays below 256 anyway).
* The return values of i2c_master_send / i2c_master_recv are fields of
  the Transport structure.  The driver discards them, so the
  definitions receive them but never inspect them, exactly as the
  source does.
* C locals that are read before being assigned are modelled as extra
  explicit parameters (errInit for the local error in probe, stack for
  the residual bytes of the data buffer in reader_read), since their
  value is indeterminate.
* copy_to_user / copy_from_user success is the copyOk field.
-/

namespace QwxIoe

/-- OUTPUTS_COUNT from the source: number of digital output channels. -/
def OUTPUTS_COUNT : Nat := 3

/-- READERS_COUNT from the source: number of card reader channels. -/
def READERS_COUNT : Nat := 2

/-- Observable events on the I2C bus: a send of a byte list, or a
receive request of a byte count. -/
inductive BusEvent where
  | send (bytes : List Nat)
  | recv (count : Nat)
deriving DecidableEq, Repr

/-- Whether a bus event is a receive. -/
def BusEvent.isRecv : BusEvent → Bool
  | .send _ => false
  | .recv _ => true

/-- Environment of one file operation: the return codes of the i2c
calls (ignored by the driver), the bytes found in the receive buffer
after i2c_master_recv (wire data on success, residual bytes on
failure), and whether the user-space copy succeeds. -/
structure Transport where
  sendRet : Int
  recvRet : Int
  buf : List Nat
  copyOk : Bool
deriving DecidableEq, Repr

/-- Result of one file operation: the ssize_t return value, the bus
events issued, the bytes copied to the user buffer, and the file
offset afterwards. -/
structure OpResult where
  retval : Int
  events : List BusEvent
  copied : List Nat
  fposAfter : Int
deriving DecidableEq, Repr

/-- The response decoding of reader_read, line 191 of the source:
card_number = ((uint)response[2] << 16) + ((uint)response[1] << 8)
+ response[0], with chars reduced mod 256 and uint arithmetic
mod 2 ^ 32. -/
def decode_card (b0 b1 b2 : Nat) : Nat :=
  ((b2 % 256) * 2 ^ 16 + (b1 % 256) * 2 ^ 8 + b0 % 256) % 2 ^ 32

/-- Encoding of a 24-bit value as 3 little-endian bytes (byte 0 least
significant), the wire format the board uses for card identifiers. -/
def encode_card (v : Nat) : List Nat :=
  [v % 256, v / 2 ^ 8 % 256, v / 2 ^ 16 % 256]

/-- Decimal rendering of a natural number as a list of ASCII codes,
mirroring the snprintf of reader_read (card_number is below 2 ^ 24, so
the signed rendering of the %d conversion agrees). -/
def decimal (n : Nat) : List Nat :=
  if h : n < 10 then [0x30 + n]
  else decimal (n / 10) ++ [0x30 + n % 10]
decreasing_by exact Nat.div_lt_self (by omega) (by omega)

/-- Write the byte list w over the front of base, keeping the tail of
base: the effect of snprintf into a buffer holding earlier contents. -/
def overlay (w base : List Nat) : List Nat := w ++ base.drop w.length

/-- output_read, lines 129..151 of the source.  At file offset 0 it
sends the one-byte query address 0x70 + output, receives one byte,
renders char 48 plus the response byte followed by a newline and the
NUL of the 3-byte initializer, copies all 3 bytes and returns 3,
advancing the offset; at a nonzero offset it returns 0 at once. -/
def output_read (output : Nat) (t : Transport) (fpos : Int) : OpResult :=
  if fpos = 0 then
    let address := (0x70 + output) % 256
    let response := t.buf.headD 0 % 256
    let data := [(0x30 + response) % 256, 0x0a, 0x00]
    let events := [BusEvent.send [address], BusEvent.recv 1]
    if t.copyOk then
      ⟨3, events, data, fpos + 3⟩
    else
      ⟨-14, events, [], fpos⟩
  else
    ⟨0, [], [], fpos⟩

/-- output_write, lines 153..176 of the source.  A zero length returns
0 with no bus traffic; otherwise the first user byte is read (char 49,
the digit one, selects 0x71, anything else 0x70), the two-byte command
[command, output] is sent, and len is returned.  Result is the
ssize_t return value and the bus events. -/
def output_write (output : Nat) (t : Transport) (buffer : List Nat)
    (len : Nat) : Int × List BusEvent :=
  if len = 0 then (0, [])
  else if t.copyOk = false then (-14, [])
  else
    let response := buffer.headD 0 % 256
    let command := if response = 0x31 then 0x71 else 0x70
    ((len : Int), [BusEvent.send [command, output % 256]])

/-- reader_read, lines 178..203 of the source.  At file offset 0 it
sends the one-byte query address 0x10 + 8 * reader, receives 8 bytes,
decodes bytes 0..2 of the response through decode_card, renders the
decimal string with newline and NUL over a buffer whose first 8 bytes
were zeroed by memset and whose last 4 bytes keep their earlier
contents (the stack parameter), copies all 12 bytes and returns 12;
at a nonzero offset it returns 0 at once. -/
def reader_read (reader : Nat) (t : Transport) (stack : List Nat)
    (fpos : Int) : OpResult :=
  if fpos = 0 then
    let address := (0x10 + 0x08 * reader) % 256
    let byteAt := fun k => t.buf.getD k 0 % 256
    let card_number := decode_card (byteAt 0) (byteAt 1) (byteAt 2)
    let base := List.replicate 8 0
      ++ (stack.map (fun b => b % 256) ++ List.replicate 4 0).take 4
    let data := overlay (decimal card_number ++ [0x0a, 0x00]) base
    let events := [BusEvent.send [address], BusEvent.recv 8]
    if t.copyOk then
      ⟨12, events, data, fpos + 12⟩
    else
      ⟨-14, events, [], fpos⟩
  else
    ⟨0, [], [], fpos⟩

/-- Observable events against the miscdevice registry: a successful
registration of a channel, or a deregistration of a channel. -/
inductive RegEvent where
  | regOutput (i : Nat)
  | regReader (i : Nat)
  | deregOutput (i : Nat)
  | deregReader (i : Nat)
deriving DecidableEq, Repr

/-- The output registration loop of probe, lines 245..254: register
each output in turn (regOut i is the misc_register outcome for output
i, 0 meaning success); on the first failure deregister outputs
0..i-1 and stop with that error. -/
def registerOutputs (regOut : Nat → Int) : List Nat → List RegEvent × Option Int
  | [] => ([], none)
  | i :: rest =>
    if regOut i ≠ 0 then
      ((List.range i).map RegEvent.deregOutput, some (regOut i))
    else
      let r := registerOutputs regOut rest
      (RegEvent.regOutput i :: r.1, r.2)

/-- The reader registration loop of probe, lines 256..268: register
each reader in turn; on the first failure deregister readers 0..j-1
and then all OUTPUTS_COUNT outputs, and stop with that error. -/
def registerReaders (regRdr : Nat → Int) : List Nat → List RegEvent × Option Int
  | [] => ([], none)
  | j :: rest =>
    if regRdr j ≠ 0 then
      ((List.range j).map RegEvent.deregReader
        ++ (List.range OUTPUTS_COUNT).map RegEvent.deregOutput,
       some (regRdr j))
    else
      let r := registerReaders regRdr rest
      (RegEvent.regReader j :: r.1, r.2)

/-- probe, lines 231..271 of the source.  addr is the configured i2c
client address; errInit models the value of the local variable error
at the point of the early return (the source reads it there before any
assignment, so it is indeterminate); regOut and regRdr give the
misc_register outcome for each channel.  Returns the registry event
trace and the int return value. -/
def probe (addr : Nat) (errInit : Int) (regOut regRdr : Nat → Int) :
    List RegEvent × Int :=
  if addr = 0x50 then
    let outs := registerOutputs regOut (List.range OUTPUTS_COUNT)
    match outs.2 with
    | some e => (outs.1, e)
    | none =>
      let rds := registerReaders regRdr (List.range READERS_COUNT)
      match rds.2 with
      | some e => (outs.1 ++ rds.1, e)
      | none => (outs.1 ++ rds.1, 0)
  else
    ([], errInit)

/-- remove, lines 273..285 of the source: deregister every output in
ascending order, then every reader, then return 0.  The parameters
give each misc_deregister call an outcome; the source never inspects
them, so the trace does not depend on them. -/
def remove (_deregOut _deregRdr : Nat → Int) : List RegEvent × Int :=
  ((List.range OUTPUTS_COUNT).map RegEvent.deregOutput
    ++ (List.range READERS_COUNT).map RegEvent.deregReader, 0)

/-- A fixed transport for witnesses: both i2c calls succeed, the
receive buffer holds a single zero byte, user-space copies succeed. -/
def tOk : Transport := ⟨0, 0, [0], true⟩

/-- Registration fixture for witnesses: output 1 fails with -16, the
others succeed. -/
def wOut : Nat → Int := fun i => if i = 1 then -16 else 0

/-- Registration fixture for witnesses: every reader succeeds. -/
def wRdr : Nat → Int := fun _ => 0

/-- C2: for every identifier value v below 2 ^ 24, encoding v as 3
little-endian bytes and decoding them with the response decoding of
reader_read recovers exactly v; in particular response bytes
1, 2, 3 decode to 197121. -/
theorem card_roundtrip (v : Nat) (hv : v < 2 ^ 24) :
    decode_card ((encode_card v).getD 0 0) ((encode_card v).getD 1 0)
      ((encode_card v).getD 2 0) = v ∧
    decode_card 1 2 3 = 197121 := by
  constructor
  · simp only [encode_card, List.getD, decode_card, List.get?,
      Option.getD_some]
    omega
  · decide

/-- Witness for C2 at v = 197121. -/
theorem card_roundtrip_witness :
    decode_card ((encode_card 197121).getD 0 0)
      ((encode_card 197121).getD 1 0) ((encode_card 197121).getD 2 0)
      = 197121 ∧
    decode_card 1 2 3 = 197121 :=
  card_roundtrip 197121 (by decide)

/-- C4: for every valid output index i the query sends the single
address byte 0x70 + i, and for every valid reader index j the query
sends the single address byte 0x10 + 8 * j. -/
theorem query_addresses (i j : Nat) (t u : Transport) (st : List Nat)
    (hi : i < OUTPUTS_COUNT) (hj : j < READERS_COUNT) :
    (output_read i t 0).events
      = [BusEvent.send [0x70 + i], BusEvent.recv 1] ∧
    (reader_read j u st 0).events
      = [BusEvent.send [0x10 + 8 * j], BusEvent.recv 8] := by
  have hi' : (0x70 + i) % 256 = 0x70 + i := by
    apply Nat.mod_eq_of_lt
    simp [OUTPUTS_COUNT] at hi
    omega
  have hj' : (0x10 + 0x08 * j) % 256 = 0x10 + 8 * j := by
    have : 8 * j < 16 := by
      simp [READERS_COUNT] at hj
      omega
    omega
  constructor
  · by_cases h : t.copyOk <;> simp [output_read, h, hi']
  · by_cases h : u.copyOk <;> simp [reader_read, h, hj']

/-- Witness for C4 at output index 0 and reader index 1. -/
theorem query_addresses_witness :
    (output_read 0 tOk 0).events
      = [BusEvent.send [0x70 + 0], BusEvent.recv 1] ∧
    (reader_read 1 tOk [] 0).events
      = [BusEvent.send [0x10 + 8 * 1], BusEvent.recv 8] :=
  query_addresses 0 1 tOk tOk [] (by decide) (by decide)

/-- C3 counterexample: with a transport whose send and receive both
report failure (return code -110, a timeout), the output query still
returns 3, a success — no transport error reaches the caller, because
the source discards the i2c return values at lines 137 and 139. -/
theorem transport_error_ignored :
    (output_read 0 ⟨-110, -110, [0], true⟩ 0).retval = 3 ∧
    0 ≤ (output_read 0 ⟨-110, -110, [0], true⟩ 0).retval := by decide

/-- C3 amended: each channel operation performs its single send (and
single receive for the queries) exactly once and ignores the transport
return codes: for every transport outcome the output query returns 3,
the reader query returns 12, and the set returns len, with no retry
and no transport error surfaced. -/
theorem transport_results_ignored (i j : Nat) (t : Transport)
    (st buffer : List Nat) (len : Nat)
    (hc : t.copyOk = true) (hlen : 0 < len) :
    (output_read i t 0).retval = 3 ∧
    (output_read i t 0).events
      = [BusEvent.send [(0x70 + i) % 256], BusEvent.recv 1] ∧
    (reader_read j t st 0).retval = 12 ∧
    (reader_read j t st 0).events
      = [BusEvent.send [(0x10 + 8 * j) % 256], BusEvent.recv 8] ∧
    (output_write j t buffer len).1 = (len : Int) ∧
    (output_write j t buffer len).2.length = 1 ∧
    ∀ e ∈ (output_write j t buffer len).2, e.isRecv = false := by
  have hl : len ≠ 0 := by omega
  refine ⟨?_, ?_, ?_, ?_, ?_, ?_, ?_⟩ <;>
    simp [output_read, reader_read, output_write, hc, hl, BusEvent.isRecv]

/-- Witness for the amended C3 with a transport reporting failure on
both i2c calls. -/
theorem transport_results_ignored_witness :
    (output_read 0 ⟨-110, -110, [0], true⟩ 0).retval = 3 ∧
    (output_read 0 ⟨-110, -110, [0], true⟩ 0).events
      = [BusEvent.send [(0x70 + 0) % 256], BusEvent.recv 1] ∧
    (reader_read 0 ⟨-110, -110, [0], true⟩ [] 0).retval = 12 ∧
    (reader_read 0 ⟨-110, -110, [0], true⟩ [] 0).events
      = [BusEvent.send [(0x10 + 8 * 0) % 256], BusEvent.recv 8] ∧
    (output_write 0 ⟨-110, -110, [0], true⟩ [0x31] 1).1 = ((1 : Nat) : Int) ∧
    (output_write 0 ⟨-110, -110, [0], true⟩ [0x31] 1).2.length = 1 ∧
    ∀ e ∈ (output_write 0 ⟨-110, -110, [0], true⟩ [0x31] 1).2,
      e.isRecv = false :=
  transport_results_ignored 0 0 ⟨-110, -110, [0], true⟩ [] [0x31] 1
    rfl (by decide)

/-- C5 counterexample: with response byte 2 the copied buffer is the
3 bytes 0x32, 0x0a, 0x00 — the digit two — although the least
significant bit of 2 is 0 and the claim allows only the chars 0x30 or
0x31 followed by a newline: the source adds the whole response byte to
char 0x30 at line 140 and copies 3 bytes including the NUL. -/
theorem output_render_lsb_counterexample :
    (output_read 0 ⟨0, 0, [2], true⟩ 0).copied = [0x32, 0x0a, 0x00] ∧
    2 % 2 = 0 ∧ (0x32 : Nat) ≠ 0x30 ∧ (0x32 : Nat) ≠ 0x31 := by decide

/-- C5 amended: the copied result is exactly the 3 bytes char 0x30
plus the full response byte (mod 256), a newline, and a NUL, with
return value 3; the first byte is 0x30 or 0x31 exactly when the
response byte is 0 or 1 — the state rendering uses the whole byte,
not its least significant bit. -/
theorem output_render_amended (i r : Nat) (t : Transport) (hr : r < 256)
    (hb : t.buf = [r]) (hc : t.copyOk = true) :
    (output_read i t 0).copied = [(0x30 + r) % 256, 0x0a, 0x00] ∧
    (output_read i t 0).retval = 3 ∧
    (((0x30 + r) % 256 = 0x30 ∨ (0x30 + r) % 256 = 0x31)
      ↔ (r = 0 ∨ r = 1)) := by
  have h1 : r % 256 = r := Nat.mod_eq_of_lt hr
  refine ⟨?_, ?_, ?_⟩
  · simp [output_read, hc, hb, h1]
  · simp [output_read, hc]
  · omega

/-- Witness for the amended C5 at response byte 1. -/
theorem output_render_amended_witness :
    (output_read 0 ⟨0, 0, [1], true⟩ 0).copied
      = [(0x30 + 1) % 256, 0x0a, 0x00] ∧
    (output_read 0 ⟨0, 0, [1], true⟩ 0).retval = 3 ∧
    (((0x30 + 1) % 256 = 0x30 ∨ (0x30 + 1) % 256 = 0x31)
      ↔ ((1 : Nat) = 0 ∨ (1 : Nat) = 1)) :=
  output_render_amended 0 1 ⟨0, 0, [1], true⟩ (by decide) rfl rfl

/-- C6: for every valid output index i, a set to ON (first user byte
the char 0x31) followed by a set to OFF (any other first byte) issues
exactly the two sends 0x71, i then 0x70, i, and no receive. -/
theorem output_set_on_off (i len1 len2 c : Nat) (t : Transport)
    (hi : i < OUTPUTS_COUNT) (h1 : 0 < len1) (h2 : 0 < len2)
    (hc : t.copyOk = true) (hne : c % 256 ≠ 0x31) :
    (output_write i t [0x31] len1).2 ++ (output_write i t [c] len2).2
      = [BusEvent.send [0x71, i], BusEvent.send [0x70, i]] ∧
    ∀ e ∈ (output_write i t [0x31] len1).2 ++ (output_write i t [c] len2).2,
      e.isRecv = false := by
  have hi3 : i < 3 := hi
  have hi' : i % 256 = i := Nat.mod_eq_of_lt (by omega)
  have hl1 : len1 ≠ 0 := by omega
  have hl2 : len2 ≠ 0 := by omega
  constructor
  · simp [output_write, hl1, hl2, hc, hne, hi']
  · simp [output_write, hl1, hl2, hc, hne, BusEvent.isRecv]

/-- Witness for C6 at output 0, OFF selected by the char 0x30. -/
theorem output_set_on_off_witness :
    (output_write 0 tOk [0x31] 1).2 ++ (output_write 0 tOk [0x30] 1).2
      = [BusEvent.send [0x71, 0], BusEvent.send [0x70, 0]] ∧
    ∀ e ∈ (output_write 0 tOk [0x31] 1).2 ++ (output_write 0 tOk [0x30] 1).2,
      e.isRecv = false :=
  output_set_on_off 0 1 1 0x30 tOk (by decide) (by decide) (by decide)
    rfl (by decide)

/-- C9: a zero-length set request returns 0 (success) at once, with no
bus event — the state of the output is untouched, it is not an
implicit OFF. -/
theorem output_write_empty_noop (i : Nat) (t : Transport)
    (buffer : List Nat) : output_write i t buffer 0 = (0, []) := rfl

/-- C10: at any nonzero file offset both reads return 0 (end of file)
with no bus event, no copied byte and an unchanged offset. -/
theorem reads_nonzero_offset_eof (i j : Nat) (t u : Transport)
    (st : List Nat) (p q : Int) (hp : p ≠ 0) (hq : q ≠ 0) :
    output_read i t p = ⟨0, [], [], p⟩ ∧
    reader_read j u st q = ⟨0, [], [], q⟩ := by
  constructor <;> simp [output_read, reader_read, hp, hq]

/-- Witness for C10 at offset 7. -/
theorem reads_nonzero_offset_eof_witness :
    output_read 0 tOk 7 = ⟨0, [], [], 7⟩ ∧
    reader_read 0 tOk [] 7 = ⟨0, [], [], 7⟩ :=
  reads_nonzero_offset_eof 0 0 tOk tOk [] 7 7 (by decide) (by decide)

/-- C1: attach is all or nothing.  If registering output k fails while
outputs 0..k-1 succeeded, the trace is exactly the k successful output
registrations followed by their deregistrations in ascending order,
the error is returned, and no reader is ever registered.  If
registering reader k fails while everything before succeeded, the
trace is the OUTPUTS_COUNT output registrations, the k reader
registrations, then deregistration of readers 0..k-1 and of all
OUTPUTS_COUNT outputs, and the error is returned. -/
theorem probe_rollback_all_or_nothing :
    (∀ (k : Nat) (e : Int) (regOut regRdr : Nat → Int),
      k < OUTPUTS_COUNT → (∀ i, i < k → regOut i = 0) → regOut k ≠ 0 →
      probe 0x50 e regOut regRdr
        = ((List.range k).map RegEvent.regOutput
            ++ (List.range k).map RegEvent.deregOutput, regOut k) ∧
      ∀ j, RegEvent.regReader j ∉ (probe 0x50 e regOut regRdr).1) ∧
    (∀ (k : Nat) (e : Int) (regOut regRdr : Nat → Int),
      k < READERS_COUNT → (∀ i, i < OUTPUTS_COUNT → regOut i = 0) →
      (∀ j, j < k → regRdr j = 0) → regRdr k ≠ 0 →
      probe 0x50 e regOut regRdr
        = ((List.range OUTPUTS_COUNT).map RegEvent.regOutput
            ++ (List.range k).map RegEvent.regReader
            ++ (List.range k).map RegEvent.deregReader
            ++ (List.range OUTPUTS_COUNT).map RegEvent.deregOutput,
           regRdr k)) := by
  constructor
  · intro k e regOut regRdr hk hsucc hfail
    have hk3 : k < 3 := hk
    interval_cases k
    · constructor
      · simp [probe, OUTPUTS_COUNT, registerOutputs, List.range_succ, hfail]
      · intro j
        simp [probe, OUTPUTS_COUNT, registerOutputs, List.range_succ, hfail]
    · have h0 := hsucc 0 (by omega)
      constructor
      · simp [probe, OUTPUTS_COUNT, registerOutputs, List.range_succ,
          h0, hfail]
      · intro j
        simp [probe, OUTPUTS_COUNT, registerOutputs, List.range_succ,
          h0, hfail]
    · have h0 := hsucc 0 (by omega)
      have h1 := hsucc 1 (by omega)
      constructor
      · simp [probe, OUTPUTS_COUNT, registerOutputs, List.range_succ,
          h0, h1, hfail]
      · intro j
        simp [probe, OUTPUTS_COUNT, registerOutputs, List.range_succ,
          h0, h1, hfail]
  · intro k e regOut regRdr hk houts hrd hfail
    have h0 := houts 0 (by decide)
    have h1 := houts 1 (by decide)
    have h2 := houts 2 (by decide)
    have hk2 : k < 2 := hk
    interval_cases k
    · simp [probe, OUTPUTS_COUNT, READERS_COUNT, registerOutputs,
        registerReaders, List.range_succ, h0, h1, h2, hfail]
    · have hr0 := hrd 0 (by omega)
      simp [probe, OUTPUTS_COUNT, READERS_COUNT, registerOutputs,
        registerReaders, List.range_succ, h0, h1, h2, hr0, hfail]

/-- Witness for C1: output 1 fails with -16, so the trace is register
output 0, deregister output 0, and no reader event. -/
theorem probe_rollback_witness :
    probe 0x50 0 wOut wRdr
      = ((List.range 1).map RegEvent.regOutput
          ++ (List.range 1).map RegEvent.deregOutput, wOut 1) ∧
    ∀ j, RegEvent.regReader j ∉ (probe 0x50 0 wOut wRdr).1 :=
  probe_rollback_all_or_nothing.1 1 0 wOut wRdr (by decide)
    (fun i hi => by interval_cases i; rfl) (by decide)

/-- C7: when the configured address is not 0x50, probe registers no
channel, but the source returns the local variable error before any
assignment to it (line 240), so the result is whatever value the
local held — with 0 it even reports success.  The claim of a definite
AttachError result does not hold of the code. -/
theorem probe_wrong_address_arbitrary_result :
    (∀ (e : Int) (regOut regRdr : Nat → Int),
      probe 0x51 e regOut regRdr = ([], e)) ∧
    probe 0x51 0 (fun _ => 0) (fun _ => 0) = ([], 0) := by
  constructor
  · intro e regOut regRdr
    rfl
  · rfl

/-- Witness for C7 at residual value -19. -/
theorem probe_wrong_address_witness :
    probe 0x51 (-19) (fun _ => 0) (fun _ => 0) = ([], -19) :=
  probe_wrong_address_arbitrary_result.1 (-19) (fun _ => 0) (fun _ => 0)

/-- C8: remove deregisters every output in ascending order and then
every reader, whatever the outcome of each deregistration, and the
trace has all OUTPUTS_COUNT + READERS_COUNT channels. -/
theorem remove_deregisters_all (dOut dRdr : Nat → Int) :
    remove dOut dRdr
      = ((List.range OUTPUTS_COUNT).map RegEvent.deregOutput
          ++ (List.range READERS_COUNT).map RegEvent.deregReader, 0) ∧
    (remove dOut dRdr).1.length = OUTPUTS_COUNT + READERS_COUNT := by
  constructor
  · rfl
  · rfl

/-- Witness for C8 with the first deregistration failing. -/
theorem remove_deregisters_all_witness :
    remove (fun _ => -1) (fun _ => 0)
      = ((List.range OUTPUTS_COUNT).map RegEvent.deregOutput
          ++ (List.range READERS_COUNT).map RegEvent.deregReader, 0) ∧
    (remove (fun _ => -1) (fun _ => 0)).1.length
      = OUTPUTS_COUNT + READERS_COUNT :=
  remove_deregisters_all (fun _ => -1) (fun _ => 0)

/-- Witness for C9 at output 0 with an empty buffer. -/
theorem output_write_empty_noop_witness :
    output_write 0 tOk [] 0 = (0, []) :=
  output_write_empty_noop 0 tOk []

end QwxIoe
